import Mathlib

/-!
Verification development for the `eyeoverthink_patent` simulation core.

The Python sources under `simulations/phi_pi_resonance_sim/` are shallowly
embedded here: Python floats are modelled as real numbers, the global
`random` module generator is modelled as an explicit state (a seed together
with a draw counter) threaded through every sampling call, and the
standard-normal deviate produced at draw position `n` under seed `s` is an
abstract stream value `gs s n` (the Mersenne-Twister internals of CPython
are library code, not part of this repository).  Fallible Python code
(raising `ValueError` / `ZeroDivisionError`) is embedded via `Except`.
-/

open Filter

noncomputable section

open Classical

/-- Golden ratio, from `PHI = (1.0 + 5.0 ** 0.5) / 2.0`. -/
def PHI : ℝ := (1 + Real.sqrt 5) / 2

/-- `PHI_PI = PHI * math.pi`. -/
def PHI_PI : ℝ := PHI * Real.pi

/-- State of CPython's module-level `random` generator, abstracted: the seed
set by the last `random.seed(s)` call plus the number of deviates drawn
since.  `random.seed` resets it; each `random.gauss` advances the counter. -/
structure RngState where
  seed : ℕ
  pos : ℕ

/-- `random.seed(s)`: the generator state is a function of the seed alone. -/
def pySeed (s : ℕ) : RngState := ⟨s, 0⟩

/-- `random.gauss(mu, sigma)` given the abstract standard-normal stream
`gs` : returns `mu + sigma * deviate` and advances the generator. -/
def pyGauss (gs : ℕ → ℕ → ℝ) (mu sigma : ℝ) (r : RngState) : ℝ × RngState :=
  (mu + sigma * gs r.seed r.pos, ⟨r.seed, r.pos + 1⟩)

/-- Python float division, raising `ZeroDivisionError` on a zero denominator. -/
def pydiv (a b : ℝ) : Except String ℝ :=
  if b = 0 then Except.error "ZeroDivisionError" else Except.ok (a / b)

/-- `math.sqrt`, raising `ValueError: math domain error` on a negative
argument. -/
def pysqrt (x : ℝ) : Except String ℝ :=
  if x < 0 then Except.error "ValueError: math domain error" else Except.ok (Real.sqrt x)

/-- Python `int(x)` (truncation toward zero) for a real value. -/
def pyIntTrunc (x : ℝ) : ℤ :=
  if 0 ≤ x then ⌊x⌋ else ⌈x⌉

/-- `statistics.fmean`, totalised: the empty list gives `0/0 = 0`
(Python raises; no claim in this development depends on that case). -/
def fmean (l : List ℝ) : ℝ := l.sum / l.length

/-- Python `max(l)` for a nonempty list, with `0` as the (unused) value on
the empty list, mirroring the `max(es) if es else 0.0` guards in the code. -/
def listMax : List ℝ → ℝ
  | [] => 0
  | x :: xs => xs.foldl max x

/-- `true` exactly on `Except.ok`. -/
def exceptOk {ε α : Type} : Except ε α → Bool
  | Except.ok _ => true
  | Except.error _ => false

/-- Boundary mode: the `"confined"` / `"open"` string tags of the wave
simulations (`openline` stands for the `"open"` tag, a Lean keyword). -/
inductive BMode where
  | confined
  | openline
deriving DecidableEq

/-! ## 1-D wave cavity (`wave_cavity_phi_pi.py`) -/

/-- The `CavityParams` dataclass. -/
structure CavityParams where
  N : ℕ := 600
  c : ℝ := 1
  dx : ℝ := 1
  dt : ℝ := 0.5
  steps : ℕ := 9000
  gamma_interior : ℝ := 1e-3
  pml_len : ℕ := 80
  pml_max : ℝ := 0.02
  i_src : ℤ := 60
  A : ℝ := 0.6
  f_cycles : ℝ := 0.02
  sigma_amp : ℝ := 0.10
  phase_jitter : ℝ := 0.02
  seed : ℕ := 4

/-- The `CavityParams()` default record. -/
def defaultCavityParams : CavityParams := {}

/-- `i0 = max(1, min(N - 2, p.i_src))` — the source-index clamp of
`WaveCavity.step` (line 106). -/
def i0clamp (N : ℕ) (i_src : ℤ) : ℤ := max 1 (min ((N : ℤ) - 2) i_src)

/-- The per-node damping profile built in `WaveCavity.__init__`
(lines 70–78): the interior baseline everywhere; in `"open"` mode the loop
`for i in range(L): g = pml_max*(i+1)/L; gamma[i] += g; gamma[N-1-i] += g`
is embedded as a fold of two point updates per iteration. -/
def gamma1D (p : CavityParams) (mode : BMode) : ℕ → ℝ :=
  let base : ℕ → ℝ := fun _ => p.gamma_interior
  match mode with
  | BMode.confined => base
  | BMode.openline =>
    (List.range p.pml_len).foldl
      (fun γ (i : ℕ) =>
        let g := p.pml_max * ((i : ℝ) + 1) / (p.pml_len : ℝ)
        let γ1 := Function.update γ i (γ i + g)
        Function.update γ1 (p.N - 1 - i) (γ1 (p.N - 1 - i) + g))
      base

/-- State held by a `WaveCavity` object. -/
structure CavityState where
  mode : BMode
  r : ℝ
  u_prev : ℕ → ℝ
  u : ℕ → ℝ
  u_next : ℕ → ℝ
  gamma : ℕ → ℝ
  omega : ℝ
  phase : ℝ
  rng : RngState

/-- `WaveCavity.__init__` (lines 57–81).  Python re-seeds the module
generator, computes the Courant number `r = c*dt/dx`, and raises
`ValueError` when `r > 1.0` before any state is built; `g0` is the
inherited (and immediately discarded) global generator state. -/
def mkWaveCavity (p : CavityParams) (mode : BMode) (g0 : RngState) : Except String CavityState :=
  let r := p.c * p.dt / p.dx
  if 1 < r then Except.error "Courant condition violated: c*dt/dx must be <= 1"
  else Except.ok
    { mode := mode
      r := r
      u_prev := fun _ => 0
      u := fun _ => 0
      u_next := fun _ => 0
      gamma := gamma1D p mode
      omega := 2 * Real.pi * p.f_cycles
      phase := PHI_PI
      rng := pySeed p.seed }

/-- `WaveCavity.step(n)` (lines 83–120): phase jitter draw, amplitude-noise
draw, interior leapfrog update, additive source forcing at the clamped
index, boundary handling by mode, then buffer rotation. -/
def cavityStep (gs : ℕ → ℕ → ℝ) (p : CavityParams) (n : ℕ) (st : CavityState) : CavityState :=
  let N := p.N
  let r2 := st.r * st.r
  let gj := pyGauss gs 0 p.phase_jitter st.rng
  let phase := st.phase + gj.1
  let ga := pyGauss gs 0 1 gj.2
  let amp_noise := 1 + p.sigma_amp * ga.1
  let s := p.A * amp_noise * Real.sin (st.omega * (n : ℝ) + phase)
  let interior : ℕ → ℝ := fun i =>
    if 1 ≤ i ∧ i ≤ N - 2 then
      (2 - 2 * st.gamma i * p.dt) * st.u i
        - (1 - st.gamma i * p.dt) * st.u_prev i
        + r2 * (st.u (i + 1) - 2 * st.u i + st.u (i - 1))
    else st.u_next i
  let i0 := i0clamp N p.i_src
  let withSrc : ℕ → ℝ := fun i =>
    if (i : ℤ) = i0 then interior i + p.dt * p.dt * s else interior i
  let bounded : ℕ → ℝ :=
    match st.mode with
    | BMode.confined => fun i => if i = 0 ∨ i = N - 1 then 0 else withSrc i
    | BMode.openline => fun i =>
        if i = 0 then st.u 1
        else if i = N - 1 then st.u (N - 2)
        else withSrc i
  { st with
      u_prev := st.u
      u := bounded
      u_next := st.u_prev
      phase := phase
      rng := ga.2 }

/-- `WaveCavity.energy` (lines 122–132). -/
def cavityEnergy (p : CavityParams) (st : CavityState) : ℝ :=
  let v2 := ∑ i in Finset.Ico 1 (p.N - 1), ((st.u i - st.u_prev i) / p.dt) ^ 2
  let ux2 := ∑ i in Finset.Ico 1 (p.N - 1), (0.5 * (st.u (i + 1) - st.u (i - 1)) / p.dx) ^ 2
  0.5 * (v2 + p.c * p.c * ux2) * p.dx

/-- `run_once(mode, p)` (lines 135–142): construct the cavity, run
`p.steps` steps collecting the energies after the half-way burn-in,
return `(mean energy, peak energy)`. -/
def runOnce (gs : ℕ → ℕ → ℝ) (mode : BMode) (p : CavityParams) (g0 : RngState) :
    Except String (ℝ × ℝ) := do
  let cav0 ← mkWaveCavity p mode g0
  let fin := (List.range p.steps).foldl
    (fun (a : CavityState × List ℝ) n =>
      let st := cavityStep gs p n a.1
      if p.steps / 2 < n then (st, a.2 ++ [cavityEnergy p st]) else (st, a.2))
    (cav0, [])
  pure (fmean fin.2, listMax fin.2)

/-! ## 3-D wave simulation (`wave3d_phi_pi.py`) -/

/-- The `P3D` dataclass. -/
structure P3D where
  N : ℕ := 22
  c : ℝ := 1
  dx : ℝ := 1
  dt : ℝ := 0.35
  steps : ℕ := 700
  gamma_interior : ℝ := 2e-3
  pml_len : ℕ := 3
  pml_max : ℝ := 0.06
  A : ℝ := 0.7
  f_cycles : ℝ := 0.02
  sigma_amp : ℝ := 0.10
  phase_jitter : ℝ := 0.02
  seed : ℕ := 5

/-- The `P3D()` default record. -/
def defaultP3D : P3D := {}

/-- The per-node damping profile of `Wave3D.__init__` (lines 63–75): the
triple loop writes every cell `(i,j,k)` once, adding
`pml_max*(L-d)/L` for cells whose boundary depth `d = min(i,j,k,N-1-i,...)`
is below the layer length. -/
def gamma3D (p : P3D) (mode : BMode) : ℕ → ℕ → ℕ → ℝ :=
  match mode with
  | BMode.confined => fun _ _ _ => p.gamma_interior
  | BMode.openline => fun i j k =>
      let d := min i (min j (min k (min (p.N - 1 - i) (min (p.N - 1 - j) (p.N - 1 - k)))))
      p.gamma_interior +
        if d < p.pml_len then p.pml_max * ((p.pml_len : ℝ) - (d : ℝ)) / (p.pml_len : ℝ) else 0

/-- State held by a `Wave3D` object (field buffers flattened as in the
source, `idx = (k*N + j)*N + i`). -/
structure Wave3DState where
  mode : BMode
  r : ℝ
  u_prev : ℕ → ℝ
  u : ℕ → ℝ
  u_next : ℕ → ℝ
  src : ℕ × ℕ × ℕ
  gamma : ℕ → ℕ → ℕ → ℝ
  omega : ℝ
  phase : ℝ
  rng : RngState

/-- `Wave3D.__init__` (lines 47–77): re-seed, compute `r = c*dt/dx`, raise
`ValueError` when `r > 1.0 / (3 ** 0.5)`, else build the zeroed buffers,
centre source and damping profile. -/
def mkWave3D (p : P3D) (mode : BMode) (g0 : RngState) : Except String Wave3DState :=
  let r := p.c * p.dt / p.dx
  if 1 / Real.sqrt 3 < r then
    Except.error "Courant condition violated for 3D: c*dt/dx must be <= 1/sqrt(3)"
  else Except.ok
    { mode := mode
      r := r
      u_prev := fun _ => 0
      u := fun _ => 0
      u_next := fun _ => 0
      src := (p.N / 2, p.N / 2, p.N / 2)
      gamma := gamma3D p mode
      omega := 2 * Real.pi * p.f_cycles
      phase := PHI_PI
      rng := pySeed p.seed }

/-! ## 2-D interactive simulation (`ascii_phi_pi.py`) -/

/-- State built by `Sim2D.__init__(W, H)` (lines 33–58).  All numeric
parameters are hard-coded; the constructor performs no Courant check and
cannot fail. -/
structure Sim2DState where
  W : ℕ
  H : ℕ
  dx : ℝ
  dt : ℝ
  c : ℝ
  r : ℝ
  u_prev : ℕ → ℕ → ℝ
  u : ℕ → ℕ → ℝ
  u_next : ℕ → ℕ → ℝ
  A : ℝ
  f_cycles : ℝ
  omega : ℝ
  phase : ℝ
  sigma_amp : ℝ
  phase_jitter : ℝ
  gamma_interior : ℝ
  lock_on : Bool
  detune : ℝ
  boundary : BMode
  sy : ℕ
  sx : ℕ
  rng : RngState

/-- `Sim2D.__init__` (lines 33–58): total — no stability precondition is
checked (and `r = 1 * 0.45 / 1` is fixed by the hard-coded `c`, `dt`, `dx`). -/
def mkSim2D (W H : ℕ) (g0 : RngState) : Sim2DState :=
  let dx : ℝ := 1
  let dt : ℝ := 0.45
  let c : ℝ := 1
  { W := W
    H := H
    dx := dx
    dt := dt
    c := c
    r := c * dt / dx
    u_prev := fun _ _ => 0
    u := fun _ _ => 0
    u_next := fun _ _ => 0
    A := 0.8
    f_cycles := 0.02
    omega := 2 * Real.pi * 0.02
    phase := PHI_PI
    sigma_amp := 0.10
    phase_jitter := 0.02
    gamma_interior := 1.5e-3
    lock_on := true
    detune := 1
    boundary := BMode.confined
    sy := H / 2
    sx := W / 2
    rng := pySeed 7 }

/-! ## Parametric oscillator (`phi_pi_parametric_sim.py`) -/

/-- The `ParamParams` dataclass. -/
structure ParamParams where
  f0 : ℝ := 60
  Q0 : ℝ := 100
  beta : ℝ := 3e4
  omega_drive_ratio : ℝ := 1
  m_param : ℝ := 0.012
  F0 : ℝ := 0
  sigma_gamma : ℝ := 0
  sigma_add : ℝ := 1e-4
  chaos_phase_sigma : ℝ := 30
  K_lock : ℝ := 1500
  C_field : ℝ := 0.7
  C_affect_gamma : ℝ := 0.6
  C_affect_lock : ℝ := 1
  phi_align : ℝ := Real.pi - PHI_PI
  G_gain : ℝ := 0
  dt : ℝ := 2e-5
  T : ℝ := 3
  seed : ℕ := 2
  x0_seed : ℝ := 1e-6
  v0_seed : ℝ := 0

/-- Energy functional of `simulate_parametric` (lines 103–104). -/
def paramEnergy (omega0 beta x v : ℝ) : ℝ :=
  0.5 * v * v + 0.5 * omega0 * omega0 * x * x + 0.25 * beta * (x * x * x * x)

/-- The `acc` closure of `simulate_parametric` (lines 107–113).  Note the
`random.gauss` call *inside* the body: every evaluation draws a fresh
additive-noise deviate and advances the generator. -/
def acc (gs : ℕ → ℕ → ℝ) (p : ParamParams) (omega0 omega_d : ℝ)
    (t_local x_local v_local k_mod gamma_eff delta_phase : ℝ) (r : RngState) :
    ℝ × RngState :=
  let theta := PHI_PI + delta_phase
  let drive := p.F0 * Real.cos (omega_d * t_local + theta)
  let gn := pyGauss gs 0 1 r
  let a_noise := p.sigma_add * gn.1
  (-2 * gamma_eff * v_local - (omega0 * omega0 + k_mod) * x_local
      - p.beta * x_local ^ 3 + drive + a_noise, gn.2)

/-- Mutable loop state of `simulate_parametric`. -/
structure PLoop where
  x : ℝ
  v : ℝ
  delta : ℝ
  t : ℝ
  rng : RngState
  Evals : List ℝ
  x2vals : List ℝ

/-- One iteration of the main loop of `simulate_parametric`
(lines 116–150): phase-error update (locked ⇔ `K_eff > 0`), effective
damping with multiplicative noise, stiffness modulation, four RK4 stage
evaluations of `acc`, state update and post-burn-in sample collection. -/
def paramStep (gs : ℕ → ℕ → ℝ) (p : ParamParams)
    (omega0 omega_d gamma0 K_eff jscale : ℝ) (steps : ℤ) (n : ℕ) (st : PLoop) : PLoop :=
  let dt := p.dt
  let gd := pyGauss gs 0 1 st.rng
  let delta :=
    if 0 < K_eff then st.delta + (-K_eff * Real.sin st.delta) * dt + jscale * gd.1
    else st.delta + jscale * gd.1
  let gg := pyGauss gs 0 1 gd.2
  let gamma_eff := max 0 (gamma0 - p.G_gain) + p.sigma_gamma * gg.1
  let theta_pump := PHI_PI + delta + p.phi_align
  let k_mod := omega0 * omega0 * p.m_param * Real.cos (2 * omega_d * st.t + theta_pump)
  let s1 := acc gs p omega0 omega_d st.t st.x st.v k_mod gamma_eff delta gg.2
  let k1x := st.v
  let k1v := s1.1
  let s2 := acc gs p omega0 omega_d (st.t + 0.5 * dt) (st.x + 0.5 * dt * k1x)
    (st.v + 0.5 * dt * k1v) k_mod gamma_eff delta s1.2
  let k2x := st.v + 0.5 * dt * k1v
  let k2v := s2.1
  let s3 := acc gs p omega0 omega_d (st.t + 0.5 * dt) (st.x + 0.5 * dt * k2x)
    (st.v + 0.5 * dt * k2v) k_mod gamma_eff delta s2.2
  let k3x := st.v + 0.5 * dt * k2v
  let k3v := s3.1
  let s4 := acc gs p omega0 omega_d (st.t + dt) (st.x + dt * k3x)
    (st.v + dt * k3v) k_mod gamma_eff delta s3.2
  let k4x := st.v + dt * k3v
  let k4v := s4.1
  let x := st.x + (dt / 6) * (k1x + 2 * k2x + 2 * k3x + k4x)
  let v := st.v + (dt / 6) * (k1v + 2 * k2v + 2 * k3v + k4v)
  let t := st.t + dt
  if Int.fdiv steps 2 < (n : ℤ) then
    { x := x, v := v, delta := delta, t := t, rng := s4.2
      Evals := st.Evals ++ [paramEnergy omega0 p.beta x v]
      x2vals := st.x2vals ++ [x * x] }
  else
    { x := x, v := v, delta := delta, t := t, rng := s4.2
      Evals := st.Evals, x2vals := st.x2vals }

/-- The configuration phase and main loop of `simulate_parametric`
(lines 72–150): re-seed the generator, derive `omega0`, `omega_d`,
`gamma0` (line 79 — `ZeroDivisionError` when `Q0 = 0`), `K_eff`,
`steps = int(p.T / dt)` (line 92 — `ZeroDivisionError` when `dt = 0`) and
`phase_jitter_scale = chaos_phase_sigma * math.sqrt(dt)` (line 96 —
`ValueError` when `dt < 0`), in source order, then run the loop. -/
def paramRun (gs : ℕ → ℕ → ℝ) (locked : Bool) (p : ParamParams) (seed : ℕ)
    (g0 : RngState) : Except String PLoop := do
  let rng0 := pySeed seed
  let omega0 := 2 * Real.pi * p.f0
  let omega_d := p.omega_drive_ratio * omega0
  let gamma0a ← pydiv omega0 (2 * p.Q0)
  let gamma0 := max 0 (gamma0a * (1 - p.C_field * p.C_affect_gamma))
  let K_eff := if locked then p.K_lock * (1 + p.C_field * p.C_affect_lock) else 0
  let stepsq ← pydiv p.T p.dt
  let steps := pyIntTrunc stepsq
  let sqdt ← pysqrt p.dt
  let jscale := p.chaos_phase_sigma * sqdt
  pure ((List.range steps.toNat).foldl
    (fun st n => paramStep gs p omega0 omega_d gamma0 K_eff jscale steps n st)
    { x := p.x0_seed, v := p.v0_seed, delta := 0, t := 0, rng := rng0
      Evals := [], x2vals := [] })

/-- The growth-ratio reduction of `simulate_parametric` (lines 156–163).
`⊤` stands for `float('inf')`.  Python's `E_vals[- m // 10 :]` slices the
last `⌈m/10⌉` elements (unary minus binds tighter than `//`), while
`E_vals[: m // 10]` takes the first `⌊m/10⌋`. -/
def growthOf (l : List ℝ) : WithTop ℝ :=
  if 20 ≤ l.length then
    let m := l.length
    let E_head := fmean (l.take (m / 10))
    let E_tail := fmean (l.drop (m - (m + 9) / 10))
    if 0 < E_head then ((E_tail / E_head : ℝ) : WithTop ℝ) else ⊤
  else 1

/-- The diagnostics record returned by `simulate_parametric`. -/
structure ParamMetrics where
  E_avg : ℝ
  E_peak : ℝ
  x_rms : ℝ
  growth : WithTop ℝ

/-- The metric reduction of `simulate_parametric` (lines 152–170). -/
def paramMetricsOf (fin : PLoop) : ParamMetrics :=
  { E_avg := if fin.Evals.isEmpty then 0 else fmean fin.Evals
    E_peak := listMax fin.Evals
    x_rms := if fin.x2vals.isEmpty then 0 else Real.sqrt (fmean fin.x2vals)
    growth := growthOf fin.Evals }

/-- `simulate_parametric(locked, p, seed)` as a whole: run then reduce. -/
def simulateParametricE (gs : ℕ → ℕ → ℝ) (locked : Bool) (p : ParamParams)
    (seed : ℕ) (g0 : RngState) : Except String ParamMetrics :=
  (paramRun gs locked p seed g0).map paramMetricsOf

/-! ## Wireless oscillator helper (`phi_pi_wireless_sim.py`) -/

/-- `_gamma_from_Q` (lines 66–67): the quality factor is clamped below by
`1e-6`, so the division never fails and non-positive `Q` is accepted. -/
def gammaFromQ (omega0 Q : ℝ) : ℝ := omega0 / (2 * max Q 1e-6)

/-! ## Phase controller (`simulate_parametric` lines 116–121) -/

/-- One update of the phase-error variable `delta` (lines 118–121):
locked (`K_eff > 0`) applies the sinusoidal restoring term, unlocked is a
pure jitter walk; `g` is the standard-normal deviate of the step. -/
def phaseStep (K_eff dt jscale delta g : ℝ) : ℝ :=
  if 0 < K_eff then delta + (-K_eff * Real.sin delta) * dt + jscale * g
  else delta + jscale * g

/-- The phase-error trajectory under a deviate stream `g`. -/
def phaseIter (K_eff dt jscale : ℝ) (g : ℕ → ℝ) (delta0 : ℝ) : ℕ → ℝ
  | 0 => delta0
  | n + 1 => phaseStep K_eff dt jscale (phaseIter K_eff dt jscale g delta0 n) (g n)

/-! ## Claim theorems -/

/-- Cavity parameters with `dt = 2`, giving Courant number `2 > 1`. -/
def cavityOverCourant : CavityParams := { dt := 2 }

/-- 3-D parameters with `dt = 1`, giving Courant number `1 > 1/sqrt 3`. -/
def p3dOverCourant : P3D := { dt := 1 }

/-- C1: a field simulation whose Courant number `r = c*dt/dx` exceeds
`1/sqrt(d)` fails at construction, before any stepping: the 1-D constructor
raises whenever `r > 1/sqrt 1 = 1`, the 3-D constructor raises whenever
`r > 1/sqrt 3`, and the 2-D constructor (whose `c`, `dt`, `dx` are
hard-coded) always has `r = 0.45 ≤ 1/sqrt 2`, so no violating 2-D
configuration can be constructed at all. -/
theorem courant_violation_fails_fast (p1 : CavityParams) (m1 : BMode) (p3 : P3D)
    (m3 : BMode) (W H : ℕ) (ga gb gc : RngState)
    (h1 : 1 / Real.sqrt 1 < p1.c * p1.dt / p1.dx)
    (h3 : 1 / Real.sqrt 3 < p3.c * p3.dt / p3.dx) :
    mkWaveCavity p1 m1 ga = Except.error "Courant condition violated: c*dt/dx must be <= 1" ∧
    mkWave3D p3 m3 gb = Except.error "Courant condition violated for 3D: c*dt/dx must be <= 1/sqrt(3)" ∧
    (mkSim2D W H gc).r ≤ 1 / Real.sqrt 2 := by
  have hr1 : (1 : ℝ) < p1.c * p1.dt / p1.dx := by
    rwa [Real.sqrt_one, one_div_one] at h1
  refine ⟨by simp [mkWaveCavity, hr1], by simp [mkWave3D]; rwa [one_div] at h3, ?_⟩
  have h2 : Real.sqrt 2 ≤ 20 / 9 := by
    rw [show ((20 : ℝ) / 9) = Real.sqrt ((20 / 9) ^ 2) from (Real.sqrt_sq (by norm_num)).symm]
    exact Real.sqrt_le_sqrt (by norm_num)
  have hpos : 0 < Real.sqrt 2 := Real.sqrt_pos.mpr (by norm_num)
  have : ((0.45 : ℝ)) ≤ 1 / Real.sqrt 2 := by
    rw [le_div_iff₀ hpos]
    nlinarith [h2, hpos.le]
  simpa [mkSim2D] using this

/-- Witness for C1: concrete over-Courant 1-D and 3-D configurations are
rejected at construction. -/
theorem courant_violation_fails_fast_w :
    mkWaveCavity cavityOverCourant BMode.confined (pySeed 0) =
      Except.error "Courant condition violated: c*dt/dx must be <= 1" ∧
    mkWave3D p3dOverCourant BMode.confined (pySeed 0) =
      Except.error "Courant condition violated for 3D: c*dt/dx must be <= 1/sqrt(3)" := by
  have h1 : 1 / Real.sqrt 1 < cavityOverCourant.c * cavityOverCourant.dt / cavityOverCourant.dx := by
    rw [Real.sqrt_one]
    norm_num [cavityOverCourant]
  have h3 : 1 / Real.sqrt 3 < p3dOverCourant.c * p3dOverCourant.dt / p3dOverCourant.dx := by
    have hlt : (1 : ℝ) < Real.sqrt 3 := by
      have := Real.sqrt_lt_sqrt (by norm_num : (0:ℝ) ≤ 1) (by norm_num : (1:ℝ) < 3)
      rwa [Real.sqrt_one] at this
    have : 1 / Real.sqrt 3 < 1 := by
      rw [div_lt_one (lt_trans one_pos hlt)]
      exact hlt
    calc 1 / Real.sqrt 3 < 1 := this
      _ ≤ p3dOverCourant.c * p3dOverCourant.dt / p3dOverCourant.dx := by norm_num [p3dOverCourant]
  have h := courant_violation_fails_fast cavityOverCourant BMode.confined p3dOverCourant
    BMode.confined 1 1 (pySeed 0) (pySeed 0) (pySeed 0) h1 h3
  exact ⟨h.1, h.2.1⟩

/-- C5: a simulation run re-seeds the module generator from the configured
seed as its first action, so its full output (trajectory-derived metrics
and energy samples alike) is independent of the inherited global generator
state: two executions with the same parameters and seed coincide. -/
theorem runs_are_deterministic (gs : ℕ → ℕ → ℝ) (locked : Bool) (p : ParamParams)
    (seed : ℕ) (mode : BMode) (q : CavityParams) (g1 g2 g3 g4 : RngState) :
    simulateParametricE gs locked p seed g1 = simulateParametricE gs locked p seed g2 ∧
    runOnce gs mode q g3 = runOnce gs mode q g4 :=
  ⟨rfl, rfl⟩

/-- C10: the source index used by the 1-D field step is the clamp
`max(1, min(N-2, i_src))`; for any configured `i_src` (in or out of the
grid range) and any grid with at least one interior node it lies in
`[1, N-2]`, hence never on a boundary node and never out of bounds. -/
theorem source_index_interior (N : ℕ) (i_src : ℤ) (hN : 3 ≤ N) :
    1 ≤ i0clamp N i_src ∧ i0clamp N i_src ≤ (N : ℤ) - 2 ∧
    0 < i0clamp N i_src ∧ i0clamp N i_src < (N : ℤ) := by
  simp only [i0clamp]
  omega

/-- Witness for C10: a negative configured source index on the default
600-node grid is clamped into the interior. -/
theorem source_index_interior_w :
    1 ≤ i0clamp 600 (-7) ∧ i0clamp 600 (-7) ≤ (600 : ℤ) - 2 := by
  have h := source_index_interior 600 (-7) (by norm_num)
  exact ⟨h.1, h.2.1⟩

/-- C4: the growth ratio of the diagnostics reduction equals the mean of
the last tail window (the last `⌈m/10⌉` samples, from `E_vals[- m//10 :]`)
divided by the mean of the head window (the first `⌊m/10⌋` samples), with
the two production guards: fewer than 20 post-burn-in samples give exactly
`1.0`, and a non-positive head mean gives `float('inf')` (`⊤`). -/
theorem growth_ratio_formula (fin : PLoop) :
    (fin.Evals.length < 20 → (paramMetricsOf fin).growth = 1) ∧
    (20 ≤ fin.Evals.length →
      ((fin.Evals.take (fin.Evals.length / 10)).sum /
          ((fin.Evals.take (fin.Evals.length / 10)).length : ℝ) ≤ 0 →
        (paramMetricsOf fin).growth = ⊤) ∧
      (0 < (fin.Evals.take (fin.Evals.length / 10)).sum /
          ((fin.Evals.take (fin.Evals.length / 10)).length : ℝ) →
        (paramMetricsOf fin).growth =
          (((fin.Evals.drop (fin.Evals.length - (fin.Evals.length + 9) / 10)).sum /
              ((fin.Evals.drop (fin.Evals.length - (fin.Evals.length + 9) / 10)).length : ℝ)) /
            ((fin.Evals.take (fin.Evals.length / 10)).sum /
              ((fin.Evals.take (fin.Evals.length / 10)).length : ℝ)) : ℝ))) := by
  refine ⟨fun h => ?_, fun h => ⟨fun hle => ?_, fun hpos => ?_⟩⟩
  · simp only [paramMetricsOf, growthOf, fmean]
    rw [if_neg (by omega)]
  · simp only [paramMetricsOf, growthOf, fmean]
    rw [if_pos h, if_neg (not_lt.mpr hle)]
  · simp only [paramMetricsOf, growthOf, fmean]
    rw [if_pos h, if_pos hpos]

/-- Loop state with no collected samples, for the C4 witness. -/
def emptyProbeLoop : PLoop :=
  { x := 0, v := 0, delta := 0, t := 0, rng := pySeed 0, Evals := [], x2vals := [] }

/-- Witness for C4: a run that collected no post-burn-in samples reports
growth ratio exactly `1`. -/
theorem growth_ratio_formula_w : (paramMetricsOf emptyProbeLoop).growth = 1 :=
  (growth_ratio_formula emptyProbeLoop).1 (by simp [emptyProbeLoop])

/-- Standard-normal stream whose deviate at position `n` is `n`, making the
draw position of each sample observable. -/
def streamIdx : ℕ → ℕ → ℝ := fun _ pos => (pos : ℝ)

/-- Oscillator parameters isolating the additive noise term
(`sigma_add = 1`, everything else that feeds `acc` zeroed). -/
def noiseProbeParams : ParamParams :=
  { f0 := 0, Q0 := 1, beta := 0, omega_drive_ratio := 1, m_param := 0, F0 := 0,
    sigma_gamma := 0, sigma_add := 1, chaos_phase_sigma := 0, K_lock := 0,
    C_field := 0, C_affect_gamma := 0, C_affect_lock := 0, phi_align := 0,
    G_gain := 0, dt := 1, T := 1, seed := 0, x0_seed := 0, v0_seed := 0 }

/-- C2 (violation): the `acc` closure of `simulate_parametric` draws a
fresh additive-noise deviate on *every* evaluation — its value depends on
the generator position it is called at (draw 2 gives noise 2, draw 3 gives
noise 3 under `streamIdx`) — and one RK4 step advances the generator by 6
draws (1 jitter + 1 damping + 4 stage calls of `acc`) instead of the 3 a
frozen-noise step would use. -/
theorem rk4_additive_noise_resampled :
    (acc streamIdx noiseProbeParams 1 1 0 0 0 0 0 0 ⟨0, 2⟩).1 = 2 ∧
    (acc streamIdx noiseProbeParams 1 1 0 0 0 0 0 0 ⟨0, 3⟩).1 = 3 ∧
    (paramStep streamIdx noiseProbeParams 1 1 0 0 0 100 0 emptyProbeLoop).rng.pos = 6 := by
  refine ⟨?_, ?_, ?_⟩
  · norm_num [acc, pyGauss, streamIdx, noiseProbeParams]
  · norm_num [acc, pyGauss, streamIdx, noiseProbeParams]
  · rfl

/-- Parametric configuration with a negative quality factor. -/
def negQParams : ParamParams := { Q0 := -100 }

/-- Parametric configuration with a zero quality factor. -/
def zeroQParams : ParamParams := { Q0 := 0 }

/-- Helper: binding an `ok` value reduces to the continuation. -/
lemma exbind_ok {e1 a1 b1 : Type} (x : a1) (f : a1 → Except e1 b1) :
    (Except.ok x >>= f) = f x := rfl

/-- Helper: binding an `error` short-circuits. -/
lemma exbind_error {e1 a1 b1 : Type} (e : e1) (f : a1 → Except e1 b1) :
    ((Except.error e : Except e1 a1) >>= f) = Except.error e := rfl

/-- C9 (violation): a run configured with the negative quality factor
`Q0 = -100` is *not* rejected — `simulate_parametric` completes normally
(the negative damping is clamped to zero by `max(0.0, ...)`). -/
theorem negative_Q_not_rejected :
    exceptOk (simulateParametricE streamIdx true negQParams 1 (pySeed 9)) = true := by
  have hden : (2 : ℝ) * negQParams.Q0 ≠ 0 := by norm_num [negQParams]
  have hdt0 : negQParams.dt ≠ 0 := by norm_num [negQParams]
  have hdtn : ¬negQParams.dt < 0 := by norm_num [negQParams]
  simp [simulateParametricE, paramRun, pydiv, pysqrt, hden, hdt0, hdtn, exceptOk, Except.map,
    exbind_ok, exbind_error]

/-- Helper: `exceptOk` detects exactly the `ok` results. -/
lemma exceptOk_iff {e1 a1 : Type} (e : Except e1 a1) : exceptOk e = true ↔ ∃ a, e = Except.ok a := by
  cases e <;> simp [exceptOk]

/-- Parametric configuration with a negative time step. -/
def negDtParams : ParamParams := { dt := -1 }

/-- C9 (amended): `simulate_parametric` rejects, before its loop, exactly
the configurations `Q0 = 0` (`ZeroDivisionError` from `omega0/(2.0*p.Q0)`,
line 79), `dt = 0` (`ZeroDivisionError` from `int(p.T / dt)`, line 92) and
`dt < 0` (`ValueError` from `math.sqrt(dt)`, line 96, after the division
succeeded); every other configuration — in particular any negative `Q0`,
whose derived damping is merely clamped to zero — runs to a normal
result. -/
theorem oscillator_rejection_characterised (gs : ℕ → ℕ → ℝ) (locked : Bool)
    (p : ParamParams) (seed : ℕ) (g0 : RngState) :
    (p.Q0 = 0 → simulateParametricE gs locked p seed g0 = Except.error "ZeroDivisionError") ∧
    (p.Q0 ≠ 0 → p.dt = 0 →
      simulateParametricE gs locked p seed g0 = Except.error "ZeroDivisionError") ∧
    (p.Q0 ≠ 0 → p.dt < 0 →
      simulateParametricE gs locked p seed g0 = Except.error "ValueError: math domain error") ∧
    (p.Q0 ≠ 0 → 0 < p.dt → ∃ m, simulateParametricE gs locked p seed g0 = Except.ok m) := by
  refine ⟨fun h => ?_, fun hq hdt => ?_, fun hq hdt => ?_, fun hq hdt => ?_⟩
  · simp [simulateParametricE, paramRun, pydiv, h, Except.map, exbind_ok, exbind_error]
  · simp [simulateParametricE, paramRun, pydiv, pysqrt, mul_ne_zero two_ne_zero hq, hdt,
      Except.map, exbind_ok, exbind_error]
  · have hdt0 : p.dt ≠ 0 := ne_of_lt hdt
    simp [simulateParametricE, paramRun, pydiv, pysqrt, mul_ne_zero two_ne_zero hq, hdt0, hdt,
      Except.map, exbind_ok, exbind_error]
  · have hdt0 : p.dt ≠ 0 := ne_of_gt hdt
    have hdtn : ¬p.dt < 0 := not_lt.mpr hdt.le
    rw [← exceptOk_iff]
    simp [simulateParametricE, paramRun, pydiv, pysqrt, mul_ne_zero two_ne_zero hq, hdt0, hdtn,
      exceptOk, Except.map, exbind_ok, exbind_error]

/-- Witness for C9 (amended): the zero-`Q0` configuration raises the
division error, and the negative-`dt` configuration the square-root domain
error, both before the loop. -/
theorem oscillator_rejection_characterised_w :
    simulateParametricE streamIdx true zeroQParams 1 (pySeed 0) =
      Except.error "ZeroDivisionError" ∧
    simulateParametricE streamIdx true negDtParams 1 (pySeed 0) =
      Except.error "ValueError: math domain error" := by
  constructor
  · exact (oscillator_rejection_characterised streamIdx true zeroQParams 1 (pySeed 0)).1 rfl
  · exact (oscillator_rejection_characterised streamIdx true negDtParams 1 (pySeed 0)).2.2.1
      (by norm_num [negDtParams]) (by norm_num [negDtParams])

/-- Stream of constant standard-normal deviates `1`. -/
def streamOne : ℕ → ℕ → ℝ := fun _ _ => 1

/-- Minimal cavity state (zero field, phase `0`) used to probe one step. -/
def probeCavityState : CavityState :=
  { mode := BMode.confined, r := 0, u_prev := fun _ => 0, u := fun _ => 0,
    u_next := fun _ => 0, gamma := fun _ => 0, omega := 0, phase := 0, rng := pySeed 0 }

/-- C8 (violation): one field step advances the source phase by
`phase_jitter * deviate = 0.02` (default parameters, deviate `1`), which
differs from the PhaseLockController update — whose jitter term is
`phase_jitter * sqrt(dt) * deviate` — in both the unlocked (`K_eff = 0`)
and the locked (`K_eff = 2550`) mode, because `sqrt(0.5) ≠ 1`. -/
theorem field_phase_not_sqrt_dt_scaled :
    (cavityStep streamOne defaultCavityParams 0 probeCavityState).phase ≠
      phaseStep 0 defaultCavityParams.dt
        (defaultCavityParams.phase_jitter * Real.sqrt defaultCavityParams.dt) 0 1 ∧
    (cavityStep streamOne defaultCavityParams 0 probeCavityState).phase ≠
      phaseStep 2550 defaultCavityParams.dt
        (defaultCavityParams.phase_jitter * Real.sqrt defaultCavityParams.dt) 0 1 := by
  have hphase : (cavityStep streamOne defaultCavityParams 0 probeCavityState).phase = 0.02 := by
    simp [cavityStep, pyGauss, streamOne, probeCavityState, defaultCavityParams]
  have hne : (0.02 : ℝ) ≠ 0.02 * Real.sqrt 0.5 := by
    intro heq
    have h1 : (0.02 : ℝ) * 1 = 0.02 * Real.sqrt 0.5 := by linarith
    have h2 : (1 : ℝ) = Real.sqrt 0.5 := mul_left_cancel₀ (by norm_num) h1
    have h3 : Real.sqrt 0.5 = 1 ↔ (0.5 : ℝ) = 1 := Real.sqrt_eq_one
    rw [← h2] at h3
    norm_num at h3
  constructor
  · have hrhs : phaseStep 0 defaultCavityParams.dt
        (defaultCavityParams.phase_jitter * Real.sqrt defaultCavityParams.dt) 0 1 =
        0.02 * Real.sqrt 0.5 := by
      simp [phaseStep, defaultCavityParams]
    rw [hphase, hrhs]
    exact hne
  · have hrhs : phaseStep 2550 defaultCavityParams.dt
        (defaultCavityParams.phase_jitter * Real.sqrt defaultCavityParams.dt) 0 1 =
        0.02 * Real.sqrt 0.5 := by
      rw [phaseStep, if_pos (by norm_num : (0:ℝ) < 2550)]
      simp [defaultCavityParams]
    rw [hphase, hrhs]
    exact hne

/-- C8 (amended): the field simulation's per-step source-phase update is
exactly the PhaseLockController rule in *unlocked* mode with the jitter
scale taken as the configured `phase_jitter` directly (no `sqrt(dt)`
factor, and no locked branch ever applies). -/
theorem field_phase_is_unlocked_walk (gs : ℕ → ℕ → ℝ) (p : CavityParams) (n : ℕ)
    (st : CavityState) :
    (cavityStep gs p n st).phase =
      phaseStep 0 p.dt p.phase_jitter st.phase (gs st.rng.seed st.rng.pos) := by
  simp [cavityStep, phaseStep, pyGauss]

/-- Helper: pointwise value of the 1-D absorbing damping fold, for nodes in
the left layer away from the right-end updates. -/
lemma gamma1D_fold_apply (p : CavityParams) (hLN : 2 * p.pml_len ≤ p.N)
    (j : ℕ) (hj : j < p.pml_len) :
    ∀ n, n ≤ p.pml_len →
      ((List.range n).foldl
        (fun γ (i : ℕ) =>
          let g := p.pml_max * ((i : ℝ) + 1) / (p.pml_len : ℝ)
          let γ1 := Function.update γ i (γ i + g)
          Function.update γ1 (p.N - 1 - i) (γ1 (p.N - 1 - i) + g))
        (fun _ => p.gamma_interior)) j =
      p.gamma_interior +
        (if j < n then p.pml_max * ((j : ℝ) + 1) / (p.pml_len : ℝ) else 0) := by
  intro n
  induction n with
  | zero => intro _; simp
  | succ n ih =>
    intro hn
    have hn' : n ≤ p.pml_len := by omega
    have hleft : j ≠ p.N - 1 - n := by omega
    rw [List.range_succ, List.foldl_append, List.foldl_cons, List.foldl_nil]
    simp only []
    rw [Function.update_noteq hleft]
    by_cases hjn : j = n
    · subst hjn
      rw [Function.update_same, ih hn', if_neg (lt_irrefl j), if_pos (Nat.lt_succ_self j)]
      ring
    · rw [Function.update_noteq hjn, ih hn']
      have hiff : j < n + 1 ↔ j < n := by omega
      rw [if_congr hiff rfl rfl]

/-- C3 (evaluation at the failing input): with the default 1-D parameters
(`pml_len = 80`, `pml_max = 0.02`), the absorbing profile at the outermost
node (index 0, depth 0) is `gamma_interior + pml_max/80` — the *smallest*
ramp value — strictly below the `gamma_interior + pml_max` that the claim
assigns to depth 0. -/
theorem absorbing_ramp_reversed_1d :
    gamma1D defaultCavityParams BMode.openline 0 =
      defaultCavityParams.gamma_interior + defaultCavityParams.pml_max / 80 ∧
    defaultCavityParams.gamma_interior + defaultCavityParams.pml_max / 80 <
      defaultCavityParams.gamma_interior + defaultCavityParams.pml_max := by
  constructor
  · have h := gamma1D_fold_apply defaultCavityParams
      (by norm_num [defaultCavityParams]) 0 (by norm_num [defaultCavityParams])
      defaultCavityParams.pml_len le_rfl
    have h80 : ((0:ℕ) < defaultCavityParams.pml_len) := by norm_num [defaultCavityParams]
    rw [if_pos h80] at h
    simp only [gamma1D]
    rw [h]
    norm_num [defaultCavityParams]
  · norm_num [defaultCavityParams]

/-- Helper: with zero jitter, `delta = pi` is an exact fixed point of the
locked (and unlocked) phase update, since `sin pi = 0`. -/
lemma phaseIter_pi_fixed (K dt : ℝ) (g : ℕ → ℝ) :
    ∀ n, phaseIter K dt 0 g Real.pi n = Real.pi := by
  intro n
  induction n with
  | zero => rfl
  | succ n ih =>
    by_cases h : 0 < K <;>
      simp [phaseIter, phaseStep, ih, h, Real.sin_pi]

/-- C7 (violation): the nonzero initial phase error `delta0 = pi` is a
fixed point of the locked controller under zero jitter (using the default
effective gain 2550 and `dt = 2e-5`), so the error never converges to 0. -/
theorem locked_stuck_at_pi :
    ¬ Tendsto (fun n => phaseIter 2550 (2e-5) 0 (fun _ => 0) Real.pi n)
      atTop (nhds 0) := by
  intro hT
  have hconst : (fun n => phaseIter 2550 (2e-5) 0 (fun _ => 0) Real.pi n) =
      fun _ => Real.pi := funext (phaseIter_pi_fixed 2550 (2e-5) (fun _ => 0))
  rw [hconst] at hT
  exact Real.pi_ne_zero (tendsto_nhds_unique hT tendsto_const_nhds).symm

/-- Helper: the zero-jitter locked trajectory stays in `[0, 1]` and decays
geometrically with per-step factor `1 - (3/4)*K*dt`. -/
lemma phaseIter_locked_decay (K dt : ℝ) (g : ℕ → ℝ) (d0 : ℝ)
    (hK : 0 < K) (h0 : 0 < K * dt) (h1 : K * dt ≤ 1) (hd0 : 0 < d0) (hd1 : d0 ≤ 1) :
    ∀ n, 0 ≤ phaseIter K dt 0 g d0 n ∧ phaseIter K dt 0 g d0 n ≤ 1 ∧
      phaseIter K dt 0 g d0 n ≤ (1 - 3 / 4 * (K * dt)) ^ n * d0 := by
  intro n
  induction n with
  | zero => exact ⟨hd0.le, hd1, by simp [phaseIter]⟩
  | succ n ih =>
    obtain ⟨h0n, h1n, hqn⟩ := ih
    set d := phaseIter K dt 0 g d0 n with hd
    have hstep : phaseIter K dt 0 g d0 (n + 1) = d - K * dt * Real.sin d := by
      simp only [phaseIter, phaseStep, if_pos hK, ← hd]
      ring
    have hsinle : Real.sin d ≤ d := Real.sin_le h0n
    have hsinge : 3 / 4 * d ≤ Real.sin d := by
      rcases eq_or_lt_of_le h0n with h | h
      · simp [← h]
      · have hc := Real.sin_gt_sub_cube h h1n
        have hsq : d ^ 2 ≤ 1 := by nlinarith
        have hcube : d ^ 3 ≤ d := by nlinarith
        linarith
    have hsinnn : 0 ≤ Real.sin d :=
      Real.sin_nonneg_of_nonneg_of_le_pi h0n (le_trans h1n (by linarith [Real.pi_gt_three]))
    have hb1 : K * dt * Real.sin d ≤ K * dt * d := mul_le_mul_of_nonneg_left hsinle h0.le
    have hb2 : K * dt * d ≤ 1 * d := mul_le_mul_of_nonneg_right h1 h0n
    have hb3 : 0 ≤ K * dt * Real.sin d := mul_nonneg h0.le hsinnn
    have hq0 : (0 : ℝ) ≤ 1 - 3 / 4 * (K * dt) := by linarith
    have hb4 : K * dt * (3 / 4 * d) ≤ K * dt * Real.sin d :=
      mul_le_mul_of_nonneg_left hsinge h0.le
    refine ⟨by rw [hstep]; linarith, by rw [hstep]; linarith, ?_⟩
    have hmul : (1 - 3 / 4 * (K * dt)) * d ≤
        (1 - 3 / 4 * (K * dt)) * ((1 - 3 / 4 * (K * dt)) ^ n * d0) :=
      mul_le_mul_of_nonneg_left hqn hq0
    calc phaseIter K dt 0 g d0 (n + 1) = d - K * dt * Real.sin d := hstep
      _ ≤ (1 - 3 / 4 * (K * dt)) * d := by nlinarith
      _ ≤ (1 - 3 / 4 * (K * dt)) * ((1 - 3 / 4 * (K * dt)) ^ n * d0) := hmul
      _ = (1 - 3 / 4 * (K * dt)) ^ (n + 1) * d0 := by ring

/-- C7 (amended): under zero jitter, the unlocked controller's error is
exactly constant, and the locked controller's error — for an initial error
in `(0, 1]` and effective per-step gain `K*dt` in `(0, 1]` — decays
geometrically with per-step factor `1 - (3/4)*K*dt` (so any tolerance is
reached in a number of steps proportional to `1/(K*dt)`) and converges
to 0. -/
theorem locked_error_converges (K dt d0 : ℝ) (g : ℕ → ℝ)
    (hK : 0 < K) (h0 : 0 < K * dt) (h1 : K * dt ≤ 1) (hd0 : 0 < d0) (hd1 : d0 ≤ 1) :
    (∀ d : ℝ, ∀ n, phaseIter 0 dt 0 g d n = d) ∧
    (∀ n, 0 ≤ phaseIter K dt 0 g d0 n ∧
      phaseIter K dt 0 g d0 n ≤ (1 - 3 / 4 * (K * dt)) ^ n * d0) ∧
    Tendsto (fun n => phaseIter K dt 0 g d0 n) atTop (nhds 0) := by
  have hinv := phaseIter_locked_decay K dt g d0 hK h0 h1 hd0 hd1
  refine ⟨?_, fun n => ⟨(hinv n).1, (hinv n).2.2⟩, ?_⟩
  · intro d n
    induction n with
    | zero => rfl
    | succ n ih => simp [phaseIter, phaseStep, ih]
  · have hq0 : (0 : ℝ) ≤ 1 - 3 / 4 * (K * dt) := by linarith
    have hq1 : 1 - 3 / 4 * (K * dt) < 1 := by linarith
    have hg : Tendsto (fun n => (1 - 3 / 4 * (K * dt)) ^ n * d0) atTop (nhds 0) := by
      have := (tendsto_pow_atTop_nhds_zero_of_lt_one hq0 hq1).mul_const d0
      simpa using this
    exact squeeze_zero (fun n => (hinv n).1) (fun n => (hinv n).2.2) hg

/-- Witness for C7 (amended): with `K = 1`, `dt = 1` and initial error `1`
the locked zero-jitter error tends to 0. -/
theorem locked_error_converges_w :
    Tendsto (fun n => phaseIter 1 1 0 (fun _ => 0) 1 n) atTop (nhds 0) :=
  (locked_error_converges 1 1 1 (fun _ => 0) (by norm_num) (by norm_num)
    (by norm_num) (by norm_num) (by norm_num)).2.2
